import Mathlib

/-!
Shallow embedding of the Chicago crime dashboard
(`Exercise 5-20260115/solution/streamlit-app.py`): the table model, the
filter engine (lines 69-82), the sidebar option construction (lines 36-56),
the summary metrics (lines 86-109), the arrest-rate aggregation
(lines 177-185) and the map view (lines 194-227), together with proofs of
the specified properties.
-/

namespace CrimeDashboard

/-- The columns the dashboard knows about. -/
inductive Col
  | date
  | year
  | primaryType
  | locationDescription
  | arrest
  | latitude
  | longitude
  | descriptionField
deriving DecidableEq, Repr

/-- One row of the loaded table.  Every attribute is optional: a missing or
malformed value is `none` (pandas `NaN`), matching the loader's
`errors='coerce'` coercions. -/
structure Row where
  date : Option Int
  year : Option Int
  primaryType : Option String
  locationDescription : Option String
  arrest : Option Bool
  latitude : Option ℚ
  longitude : Option ℚ
  descriptionField : Option String
deriving DecidableEq, Repr

/-- A loaded table: the columns present in the CSV together with the rows.
Boolean row indexing (the only row operation used) never changes `cols`. -/
structure Table where
  cols : List Col
  rows : List Row
deriving DecidableEq, Repr

/-- `'C' in df.columns`. -/
def hasCol (t : Table) (c : Col) : Bool := t.cols.contains c

/-- The arrest selectbox: `'All' / 'Yes' / 'No'`. -/
inductive ArrestChoice
  | all
  | yes
  | no
deriving DecidableEq, Repr

/-- One interaction's filter selection (the four sidebar widgets).  Empty
lists are the multiselect defaults, `ArrestChoice.all` the selectbox
default. -/
structure Selection where
  years : List Int
  crimeTypes : List String
  locations : List String
  arrest : ArrestChoice
deriving DecidableEq, Repr

/-- `series.isin(sel)` for one cell.  The UI builds `sel` from `dropna()`
option lists, so `sel` holds no nulls and a null cell is never a member. -/
def optMem {α : Type} [BEq α] (v : Option α) (sel : List α) : Bool :=
  match v with
  | some x => sel.contains x
  | none => false

/-- One guarded filter step of the filter engine:
`if active: filtered_df = filtered_df[pred]`.  Row indexing keeps the
column set. -/
def condFilter (active : List Col → Bool) (p : Row → Bool) (t : Table) : Table :=
  if active t.cols then ⟨t.cols, t.rows.filter p⟩ else t

/-- `if selected_years and 'Year' in filtered_df.columns:
filtered_df[filtered_df['Year'].isin(selected_years)]` (lines 71-72). -/
def filterYear (sel : Selection) : Table → Table :=
  condFilter (fun cols => !sel.years.isEmpty && cols.contains Col.year)
    (fun r => optMem r.year sel.years)

/-- The `Primary Type` membership filter (lines 74-75). -/
def filterCrimeType (sel : Selection) : Table → Table :=
  condFilter (fun cols => !sel.crimeTypes.isEmpty && cols.contains Col.primaryType)
    (fun r => optMem r.primaryType sel.crimeTypes)

/-- The `Location Description` membership filter (lines 77-78). -/
def filterLocation (sel : Selection) : Table → Table :=
  condFilter (fun cols => !sel.locations.isEmpty && cols.contains Col.locationDescription)
    (fun r => optMem r.locationDescription sel.locations)

/-- The arrest filter (lines 80-82): `arrest_bool = selected_arrest == 'Yes'`
and `filtered_df['Arrest'] == arrest_bool`; a null arrest cell compares
unequal to either boolean. -/
def filterArrest (sel : Selection) : Table → Table :=
  condFilter (fun cols => !(sel.arrest == ArrestChoice.all) && cols.contains Col.arrest)
    (fun r => r.arrest == some (sel.arrest == ArrestChoice.yes))

/-- The filter engine: the four dimension filters in the source's textual
order. -/
def applyFilters (sel : Selection) (t : Table) : Table :=
  filterArrest sel (filterLocation sel (filterCrimeType sel (filterYear sel t)))

/-- The four dimension filters, in source order. -/
def dimFilters (sel : Selection) : List (Table → Table) :=
  [filterYear sel, filterCrimeType sel, filterLocation sel, filterArrest sel]

/-- Apply a list of filters left to right. -/
def applySeq (fs : List (Table → Table)) (t : Table) : Table :=
  fs.foldl (fun u f => f u) t

/-- The exceptions the dashboard can leak: pandas `KeyError` on a missing
column, `ValueError` from `int(nan)`, and streamlit's slider-argument
rejection. -/
inductive AppError
  | keyError
  | valueError
  | sliderError
deriving DecidableEq, Repr

/-- `Series.unique()`: distinct values in first-seen order. -/
def firstSeenDedupAux {α : Type} [BEq α] : List α → List α → List α
  | [], _ => []
  | x :: xs, seen =>
    if seen.contains x then firstSeenDedupAux xs seen
    else x :: firstSeenDedupAux xs (x :: seen)

/-- `Series.unique()`: distinct values in first-seen order. -/
def firstSeenDedup {α : Type} [BEq α] (l : List α) : List α :=
  firstSeenDedupAux l []

/-- Stable insertion of `x` into `l`: `x` goes before the first element
that does not strictly precede it under `lt`. -/
def insertBy {α : Type} (lt : α → α → Bool) (x : α) : List α → List α
  | [] => [x]
  | y :: ys => if lt y x then y :: insertBy lt x ys else x :: y :: ys

/-- Stable insertion sort; `lt y x` means `y` strictly precedes `x` in the
target order. -/
def sortBy {α : Type} (lt : α → α → Bool) : List α → List α
  | [] => []
  | x :: xs => insertBy lt x (sortBy lt xs)

/-- Code-point lexicographic order on character lists (Python string
order). -/
def charsLtb : List Char → List Char → Bool
  | [], [] => false
  | [], _ :: _ => true
  | _ :: _, [] => false
  | a :: as, b :: bs =>
    if a.toNat < b.toNat then true
    else if b.toNat < a.toNat then false
    else charsLtb as bs

/-- Python's `<` on strings. -/
def strLtb (a b : String) : Bool := charsLtb a.data b.data

/-- Strict `<` on `Int`, as a boolean comparator. -/
def intLtb (a b : Int) : Bool := decide (a < b)

/-- `sorted(df['Year'].dropna().unique())` (line 37): the options of the
year multiselect; the unguarded `df['Year']` lets a `KeyError` escape when
the column is absent. -/
def yearOptions (t : Table) : Except AppError (List Int) :=
  if hasCol t Col.year then
    Except.ok (sortBy intLtb (firstSeenDedup (t.rows.filterMap (fun r => r.year))))
  else Except.error AppError.keyError

/-- A count-valued metric: a number, or the "N/A" sentinel. -/
inductive CountMetric
  | count (n : Nat)
  | notAvailable
deriving DecidableEq, Repr

/-- "Arrests Made" metric (lines 90-95): both dtype branches count the rows
whose arrest value is `True`; "N/A" when the column is absent. -/
def arrestsMade (t : Table) : CountMetric :=
  if hasCol t Col.arrest then
    CountMetric.count (t.rows.countP (fun r => r.arrest == some true))
  else CountMetric.notAvailable

/-- The rows of a view whose arrest flag is `true` (the quantity the spec
says the arrest-count metric reports). -/
def trueArrestRows (t : Table) : List Row :=
  t.rows.filter (fun r => r.arrest == some true)

/-- "Year Range" metric (lines 104-109): the string
`f"{int(min)}-{int(max)}"` over the non-null years when the column exists —
`int(nan)` raises `ValueError` when there is no non-null year — and the
string `"N/A"` when the column is absent. -/
def yearRange (t : Table) : Except AppError String :=
  if hasCol t Col.year then
    match t.rows.filterMap (fun r => r.year) with
    | [] => Except.error AppError.valueError
    | y :: ys => Except.ok (toString (ys.foldl min y) ++ "-" ++ toString (ys.foldl max y))
  else Except.ok "N/A"

/-- `groupby('Primary Type')` keys: the distinct non-null types, sorted
ascending (pandas groupby's `sort=True` default). -/
def groupKeys (t : Table) : List String :=
  sortBy strLtb (firstSeenDedup (t.rows.filterMap (fun r => r.primaryType)))

/-- Size of the group of key `k`. -/
def groupCount (t : Table) (k : String) : Nat :=
  t.rows.countP (fun r => r.primaryType == some k)

/-- `(x == True).sum()` within the group of key `k`. -/
def groupTrueCount (t : Table) (k : String) : Nat :=
  t.rows.countP (fun r => r.primaryType == some k && r.arrest == some true)

/-- `(x == True).sum() / len(x) * 100` for the group of key `k`
(line 179). -/
def groupRate (t : Table) (k : String) : ℚ :=
  (groupTrueCount t k : ℚ) / (groupCount t k : ℚ) * 100

/-- `a` strictly precedes `b` in the descending-by-rate order. -/
def rateDescLt (a b : String × ℚ) : Bool := decide (b.2 < a.2)

/-- Lines 177-185: per-group rates over the groupby keys,
`sort_values(ascending=False)`, `head(15)`. -/
def arrestRates (t : Table) : List (String × ℚ) :=
  (sortBy rateDescLt ((groupKeys t).map (fun k => (k, groupRate t k)))).take 15

/-- Modelled from the spec: the same aggregation, except that the spec's
words "ties broken by stable original order" put tied rates in the table's
first-seen key order, not in the sorted group-key order that `groupby`
produces. -/
def specArrestRates (t : Table) : List (String × ℚ) :=
  (sortBy rateDescLt
    ((firstSeenDedup (t.rows.filterMap (fun r => r.primaryType))).map
      (fun k => (k, groupRate t k)))).take 15

/-- `filtered_df.dropna(subset=['Latitude', 'Longitude'])` (line 198): the
coordinate-valid rows; a `KeyError` escapes when either column is
absent. -/
def coordRows (t : Table) : Except AppError (List Row) :=
  if hasCol t Col.latitude && hasCol t Col.longitude then
    Except.ok (t.rows.filter (fun r => r.latitude.isSome && r.longitude.isSome))
  else Except.error AppError.keyError

/-- `st.slider(label, lo, hi, v0)`: streamlit rejects a default value
outside `[lo, hi]`; otherwise the user's choice is kept within the
bounds. -/
def slider (lo hi v0 choice : Nat) : Except AppError Nat :=
  if lo ≤ v0 ∧ v0 ≤ hi then Except.ok (max lo (min choice hi))
  else Except.error AppError.sliderError

/-- What the map tab renders. -/
inductive MapResult
  | noPoints
  | plotted (pts : List Row)
deriving DecidableEq, Repr

/-- Map View tab (lines 194-227): coordinate-valid rows, a warning when
none remain, otherwise `st.slider(100, min(1000, len(map_df)), 500)` and
`map_df.head(max_points)`. -/
def mapView (t : Table) (choice : Nat) : Except AppError MapResult :=
  match coordRows t with
  | Except.error e => Except.error e
  | Except.ok cr =>
    if 0 < cr.length then
      match slider 100 (min 1000 cr.length) 500 choice with
      | Except.error e => Except.error e
      | Except.ok n => Except.ok (MapResult.plotted (cr.take n))
    else Except.ok MapResult.noPoints

/-! ### Concrete tables used as witnesses and counterexamples -/

/-- A row with every attribute null. -/
def blankRow : Row := ⟨none, none, none, none, none, none, none, none⟩

/-- A small table carrying all four filter dimensions. -/
def tEx : Table :=
  ⟨[Col.year, Col.primaryType, Col.locationDescription, Col.arrest],
   [⟨none, some 2020, some "THEFT", some "STREET", some true, none, none, none⟩,
    ⟨none, some 2021, some "BATTERY", some "APARTMENT", some false, none, none, none⟩,
    blankRow]⟩

/-- A table whose column set lacks `Year`. -/
def tNoYear : Table :=
  ⟨[Col.primaryType, Col.arrest],
   [⟨none, none, some "THEFT", none, some true, none, none, none⟩]⟩

/-- A table with a `Year` column but no non-null year value. -/
def tYearAllNull : Table :=
  ⟨[Col.year, Col.primaryType],
   [⟨none, none, some "THEFT", none, none, none, none, none⟩]⟩

/-- A table without the coordinate columns. -/
def tNoCoordCols : Table :=
  ⟨[Col.year, Col.primaryType, Col.arrest],
   [⟨none, some 2020, some "THEFT", none, some true, none, none, none⟩]⟩

/-- The spec's three-row arrest-rate example. -/
def tEx7 : Table :=
  ⟨[Col.primaryType, Col.arrest],
   [⟨none, none, some "THEFT", none, some true, none, none, none⟩,
    ⟨none, none, some "THEFT", none, some false, none, none, none⟩,
    ⟨none, none, some "BATTERY", none, some true, none, none, none⟩]⟩

/-- Two tied-rate groups whose first-seen order is the reverse of their
alphabetical order. -/
def tZA : Table :=
  ⟨[Col.primaryType, Col.arrest],
   [⟨none, none, some "ZEBRA", none, some true, none, none, none⟩,
    ⟨none, none, some "APPLE", none, some true, none, none, none⟩]⟩

/-- A coordinate-valid row. -/
def rCoord : Row := ⟨none, none, some "THEFT", none, some true, some 0, some 0, none⟩

/-- Three coordinate-valid rows: fewer than the slider's default of 500. -/
def tFewCoords : Table := ⟨[Col.latitude, Col.longitude], [rCoord, rCoord, rCoord]⟩

/-- Five hundred coordinate-valid rows. -/
def tManyCoords : Table := ⟨[Col.latitude, Col.longitude], List.replicate 500 rCoord⟩

/-- A concrete selection touching every dimension. -/
def s0 : Selection := ⟨[2020], ["THEFT"], [], ArrestChoice.yes⟩

/-- A concrete selection with non-empty membership sets. -/
def s1 : Selection := ⟨[2020], ["THEFT"], ["STREET"], ArrestChoice.all⟩

/-- The all-default selection. -/
def sEmpty : Selection := ⟨[], [], [], ArrestChoice.all⟩

/-! ### Helper lemmas -/

theorem condFilter_comm (a₁ a₂ : List Col → Bool) (p₁ p₂ : Row → Bool) (t : Table) :
    condFilter a₂ p₂ (condFilter a₁ p₁ t) = condFilter a₁ p₁ (condFilter a₂ p₂ t) := by
  unfold condFilter
  by_cases h1 : a₁ t.cols = true <;> by_cases h2 : a₂ t.cols = true <;>
    simp [h1, h2, List.filter_filter, Bool.and_comm]

theorem condFilter_length_le (a : List Col → Bool) (p : Row → Bool) (t : Table) :
    (condFilter a p t).rows.length ≤ t.rows.length := by
  unfold condFilter
  split
  · exact List.length_filter_le _ _
  · exact le_refl _

theorem mem_condFilter_pred {active : List Col → Bool} {p : Row → Bool} {t : Table} {r : Row}
    (hact : active t.cols = true) (hm : r ∈ (condFilter active p t).rows) : p r = true := by
  rw [condFilter, if_pos hact] at hm
  exact (List.mem_filter.mp hm).2

theorem condFilter_inactive {active : List Col → Bool} {p : Row → Bool} {t : Table}
    (h : active t.cols = false) : condFilter active p t = t := by
  rw [condFilter, if_neg]
  simp [h]

theorem applySeq_perm {fs gs : List (Table → Table)} (h : List.Perm fs gs) :
    (∀ f ∈ fs, ∀ g ∈ fs, ∀ u, g (f u) = f (g u)) →
      ∀ u, applySeq fs u = applySeq gs u := by
  induction h with
  | nil => exact fun _ _ => rfl
  | cons x hp ih =>
    intro hc u
    show applySeq _ (x u) = applySeq _ (x u)
    exact ih (fun f hf g hg =>
      hc f (List.mem_cons_of_mem _ hf) g (List.mem_cons_of_mem _ hg)) (x u)
  | swap x y l =>
    intro hc u
    show applySeq l (x (y u)) = applySeq l (y (x u))
    rw [hc y (by simp) x (by simp) u]
  | trans h1 _ ih1 ih2 =>
    intro hc u
    rw [ih1 hc u,
      ih2 (fun f hf g hg => hc f (h1.mem_iff.mpr hf) g (h1.mem_iff.mpr hg)) u]

theorem dimFilters_comm (sel : Selection) :
    ∀ f ∈ dimFilters sel, ∀ g ∈ dimFilters sel, ∀ u, g (f u) = f (g u) := by
  intro f hf g hg u
  simp only [dimFilters, List.mem_cons, List.not_mem_nil, or_false] at hf hg
  rcases hf with rfl | rfl | rfl | rfl <;> rcases hg with rfl | rfl | rfl | rfl <;>
    first
      | rfl
      | exact condFilter_comm _ _ _ _ u

theorem mem_insertBy {α : Type} (lt : α → α → Bool) (x y : α) :
    ∀ l : List α, y ∈ insertBy lt x l → y = x ∨ y ∈ l
  | [], h => by simpa [insertBy] using h
  | z :: zs, h => by
    by_cases hz : lt z x = true
    · simp only [insertBy, hz, if_true] at h
      rcases List.mem_cons.mp h with h | h
      · exact Or.inr (h ▸ List.mem_cons_self _ _)
      · rcases mem_insertBy lt x y zs h with h | h
        · exact Or.inl h
        · exact Or.inr (List.mem_cons_of_mem _ h)
    · simp only [insertBy, hz, if_false] at h
      rcases List.mem_cons.mp h with h | h
      · exact Or.inl h
      · exact Or.inr h

theorem mem_sortBy {α : Type} (lt : α → α → Bool) (y : α) :
    ∀ l : List α, y ∈ sortBy lt l → y ∈ l
  | [], h => by simp [sortBy] at h
  | x :: xs, h => by
    rcases mem_insertBy lt x y (sortBy lt xs) (by simpa [sortBy] using h) with rfl | h2
    · exact List.mem_cons_self _ _
    · exact List.mem_cons_of_mem _ (mem_sortBy lt y xs h2)

theorem mem_firstSeenDedupAux {α : Type} [BEq α] (y : α) :
    ∀ l seen : List α, y ∈ firstSeenDedupAux l seen → y ∈ l
  | [], _, h => by simp [firstSeenDedupAux] at h
  | x :: xs, seen, h => by
    by_cases hx : seen.contains x = true
    · simp only [firstSeenDedupAux, hx, if_true] at h
      exact List.mem_cons_of_mem _ (mem_firstSeenDedupAux y xs seen h)
    · simp only [firstSeenDedupAux, hx, if_false] at h
      rcases List.mem_cons.mp h with rfl | h
      · exact List.mem_cons_self _ _
      · exact List.mem_cons_of_mem _ (mem_firstSeenDedupAux y xs _ h)

theorem insertBy_rate_pairwise (x : String × ℚ) (l : List (String × ℚ))
    (h : l.Pairwise (fun a b => b.2 ≤ a.2)) :
    (insertBy rateDescLt x l).Pairwise (fun a b => b.2 ≤ a.2) := by
  induction l with
  | nil => simp [insertBy]
  | cons z zs ih =>
    rcases List.pairwise_cons.mp h with ⟨hz, hzs⟩
    by_cases hlt : rateDescLt z x = true
    · have hzx : x.2 < z.2 := by simpa [rateDescLt] using hlt
      simp only [insertBy, hlt, if_true]
      refine List.pairwise_cons.mpr ⟨?_, ih hzs⟩
      intro b hb
      rcases mem_insertBy _ _ _ _ hb with rfl | hb
      · exact le_of_lt hzx
      · exact hz b hb
    · have hxz : z.2 ≤ x.2 := by simpa [rateDescLt, not_lt] using hlt
      simp only [insertBy, hlt, if_false]
      refine List.pairwise_cons.mpr ⟨?_, h⟩
      intro b hb
      rcases List.mem_cons.mp hb with rfl | hb
      · exact hxz
      · exact le_trans (hz b hb) hxz

theorem sortBy_rate_pairwise :
    ∀ l : List (String × ℚ), (sortBy rateDescLt l).Pairwise (fun a b => b.2 ≤ a.2)
  | [] => by simp [sortBy]
  | x :: xs => insertBy_rate_pairwise x _ (sortBy_rate_pairwise xs)

theorem groupTrueCount_le (t : Table) (k : String) :
    groupTrueCount t k ≤ groupCount t k :=
  List.countP_mono_left fun _ _ h => ((Bool.and_eq_true _ _).mp h).1

theorem groupCount_pos_of_mem {t : Table} {k : String} (h : k ∈ groupKeys t) :
    0 < groupCount t k := by
  have h1 : k ∈ firstSeenDedup (t.rows.filterMap fun r => r.primaryType) :=
    mem_sortBy _ _ _ h
  have h2 : k ∈ t.rows.filterMap fun r => r.primaryType :=
    mem_firstSeenDedupAux _ _ _ h1
  rcases List.mem_filterMap.mp h2 with ⟨r, hr, hrk⟩
  refine List.countP_pos_iff.mpr ⟨r, hr, ?_⟩
  simp [hrk]

/-! ### Claim theorems -/

/-- Claim C1 (code bug): the spec demands that no exception reach the
user-visible layer, but the code leaks them: with the coordinate columns
absent, the map tab's `dropna(subset=['Latitude', 'Longitude'])` raises
`KeyError`, and with the `Year` column absent the sidebar's unguarded
`sorted(df['Year'].dropna().unique())` raises `KeyError`. -/
theorem unhandled_exceptions_exist :
    mapView tNoCoordCols 500 = Except.error AppError.keyError
  ∧ yearOptions tNoYear = Except.error AppError.keyError := ⟨rfl, rfl⟩

/-- Claim C2 (amended): the filter engine itself does skip a dimension
unconditionally when its column is absent (identity on the table, so it
neither errors nor drops rows); however, for a table missing the `Year`
column the year-filter option construction raises `KeyError` instead of
offering no options, so the flow does not continue. -/
theorem missing_column_filter_skipped (t : Table) (sel : Selection) :
    (hasCol t Col.year = false → filterYear sel t = t)
  ∧ (hasCol t Col.primaryType = false → filterCrimeType sel t = t)
  ∧ (hasCol t Col.locationDescription = false → filterLocation sel t = t)
  ∧ (hasCol t Col.arrest = false → filterArrest sel t = t)
  ∧ (hasCol t Col.year = false → yearOptions t = Except.error AppError.keyError) := by
  simp only [hasCol]
  refine ⟨fun h => ?_, fun h => ?_, fun h => ?_, fun h => ?_, fun h => ?_⟩
  · exact condFilter_inactive
      (by show (!sel.years.isEmpty && t.cols.contains Col.year) = false
          rw [h, Bool.and_false])
  · exact condFilter_inactive
      (by show (!sel.crimeTypes.isEmpty && t.cols.contains Col.primaryType) = false
          rw [h, Bool.and_false])
  · exact condFilter_inactive
      (by show (!sel.locations.isEmpty && t.cols.contains Col.locationDescription) = false
          rw [h, Bool.and_false])
  · exact condFilter_inactive
      (by show (!(sel.arrest == ArrestChoice.all) && t.cols.contains Col.arrest) = false
          rw [h, Bool.and_false])
  · rw [yearOptions, hasCol, h]
    rfl

/-- Claim C2, witness: the amended theorem applied to a concrete
`Year`-less table and a fully populated selection. -/
theorem missing_column_filter_skipped_witness :
    filterYear s0 tNoYear = tNoYear
  ∧ yearOptions tNoYear = Except.error AppError.keyError :=
  ⟨(missing_column_filter_skipped tNoYear s0).1 rfl,
   (missing_column_filter_skipped tNoYear s0).2.2.2.2 rfl⟩

/-- Claim C2, counterexample: a table missing the `Year` column makes the
year-filter option construction (`sorted(df['Year'].dropna().unique())`)
raise `KeyError`; the UI does not "offer no options and continue". -/
theorem year_option_construction_raises :
    yearOptions ⟨[Col.primaryType, Col.arrest], []⟩ = Except.error AppError.keyError := rfl

/-- Claim C3 (code bug): the year-range metric does return "N/A" when the
`Year` column is absent, but when the column exists with no non-null value
the code computes `int(filtered_df['Year'].min())` = `int(nan)`, which
raises `ValueError` instead of reporting "N/A". -/
theorem year_range_crashes_without_year_values :
    yearRange tYearAllNull = Except.error AppError.valueError
  ∧ yearRange ⟨[], []⟩ = Except.ok "N/A" := ⟨rfl, rfl⟩

/-- Claim C4: applying the four dimension filters in any permutation of
the source order yields the same filtered table. -/
theorem filter_order_independent (t : Table) (sel : Selection)
    (fs : List (Table → Table)) (h : List.Perm fs (dimFilters sel)) :
    applySeq fs t = applyFilters sel t := by
  have hseq : applySeq (dimFilters sel) t = applyFilters sel t := rfl
  rw [← hseq]
  exact applySeq_perm h
    (fun f hf g hg => dimFilters_comm sel f (h.subset hf) g (h.subset hg)) t

/-- Claim C4, witness: swapping the first two filters on a concrete table
and selection gives the same subset as the source order. -/
theorem filter_order_independent_witness :
    applySeq [filterCrimeType s0, filterYear s0, filterLocation s0, filterArrest s0] tEx
      = applyFilters s0 tEx :=
  filter_order_independent tEx s0 _ (List.Perm.swap _ _ _)

/-- Claim C5: an empty selection on any dimension leaves that dimension's
filter inactive (identity), and the all-default selection returns the full
table. -/
theorem empty_selection_no_restriction (t : Table) (sel : Selection) :
    (sel.years = [] → filterYear sel t = t)
  ∧ (sel.crimeTypes = [] → filterCrimeType sel t = t)
  ∧ (sel.locations = [] → filterLocation sel t = t)
  ∧ (sel.arrest = ArrestChoice.all → filterArrest sel t = t)
  ∧ applyFilters sEmpty t = t := by
  refine ⟨fun h => ?_, fun h => ?_, fun h => ?_, fun h => ?_, ?_⟩
  · exact condFilter_inactive
      (by show (!sel.years.isEmpty && t.cols.contains Col.year) = false
          rw [h]
          rfl)
  · exact condFilter_inactive
      (by show (!sel.crimeTypes.isEmpty && t.cols.contains Col.primaryType) = false
          rw [h]
          rfl)
  · exact condFilter_inactive
      (by show (!sel.locations.isEmpty && t.cols.contains Col.locationDescription) = false
          rw [h]
          rfl)
  · exact condFilter_inactive
      (by show (!(sel.arrest == ArrestChoice.all) && t.cols.contains Col.arrest) = false
          rw [h]
          rfl)
  · have h1 : filterYear sEmpty t = t := condFilter_inactive rfl
    have h2 : filterCrimeType sEmpty t = t := condFilter_inactive rfl
    have h3 : filterLocation sEmpty t = t := condFilter_inactive rfl
    have h4 : filterArrest sEmpty t = t := condFilter_inactive rfl
    show filterArrest sEmpty (filterLocation sEmpty (filterCrimeType sEmpty
      (filterYear sEmpty t))) = t
    rw [h1, h2, h3, h4]

/-- Claim C5, witness: the all-default selection leaves a concrete table
untouched. -/
theorem empty_selection_no_restriction_witness :
    applyFilters sEmpty tEx = tEx ∧ filterYear sEmpty tEx = tEx :=
  ⟨(empty_selection_no_restriction tEx sEmpty).2.2.2.2,
   (empty_selection_no_restriction tEx sEmpty).1 rfl⟩

/-- Claim C6: with the `Arrest` column present the metric is exactly the
number of rows whose arrest flag is true; with the column absent it is the
"N/A" sentinel, which is distinct from the count 0. -/
theorem arrest_count_metric (t : Table) :
    (hasCol t Col.arrest = true →
      arrestsMade t = CountMetric.count (trueArrestRows t).length)
  ∧ (hasCol t Col.arrest = false → arrestsMade t = CountMetric.notAvailable)
  ∧ CountMetric.notAvailable ≠ CountMetric.count 0 := by
  refine ⟨fun h => ?_, fun h => ?_, by simp⟩
  · rw [arrestsMade, if_pos h, trueArrestRows, List.countP_eq_length_filter]
  · rw [arrestsMade, if_neg]
    simp [h]

/-- Claim C6, witness: the metric evaluated with and without the `Arrest`
column on concrete tables. -/
theorem arrest_count_metric_witness :
    arrestsMade tEx = CountMetric.count (trueArrestRows tEx).length
  ∧ arrestsMade ⟨[Col.year], tEx.rows⟩ = CountMetric.notAvailable :=
  ⟨(arrest_count_metric tEx).1 rfl,
   (arrest_count_metric ⟨[Col.year], tEx.rows⟩).2.1 rfl⟩

/-- Claim C9: the filtered subset never has more rows than the input
table. -/
theorem filtered_length_le (t : Table) (sel : Selection) :
    (applyFilters sel t).rows.length ≤ t.rows.length :=
  le_trans (condFilter_length_le _ _ _)
    (le_trans (condFilter_length_le _ _ _)
      (le_trans (condFilter_length_le _ _ _) (condFilter_length_le _ _ _)))

/-- Claim C10: under a non-empty selection on a present dimension column,
`isin`-style membership never matches a null cell, so null-valued rows are
excluded — while an empty selection on that dimension retains them. -/
theorem nonempty_selection_excludes_null (t : Table) (sel : Selection) (r : Row) :
    (sel.years ≠ [] → hasCol t Col.year = true →
      r ∈ (filterYear sel t).rows → r.year ≠ none)
  ∧ (sel.crimeTypes ≠ [] → hasCol t Col.primaryType = true →
      r ∈ (filterCrimeType sel t).rows → r.primaryType ≠ none)
  ∧ (sel.locations ≠ [] → hasCol t Col.locationDescription = true →
      r ∈ (filterLocation sel t).rows → r.locationDescription ≠ none)
  ∧ (sel.years = [] → r ∈ t.rows → r ∈ (filterYear sel t).rows) := by
  simp only [hasCol]
  refine ⟨fun hs hc hm => ?_, fun hs hc hm => ?_, fun hs hc hm => ?_, fun hs hm => ?_⟩
  · have hne : sel.years.isEmpty = false := by
      cases hy : sel.years
      · exact absurd hy hs
      · rfl
    have hp := mem_condFilter_pred
      (by show (!sel.years.isEmpty && t.cols.contains Col.year) = true
          rw [hne, hc]
          rfl) hm
    intro hn
    rw [hn] at hp
    simp [optMem] at hp
  · have hne : sel.crimeTypes.isEmpty = false := by
      cases hy : sel.crimeTypes
      · exact absurd hy hs
      · rfl
    have hp := mem_condFilter_pred
      (by show (!sel.crimeTypes.isEmpty && t.cols.contains Col.primaryType) = true
          rw [hne, hc]
          rfl) hm
    intro hn
    rw [hn] at hp
    simp [optMem] at hp
  · have hne : sel.locations.isEmpty = false := by
      cases hy : sel.locations
      · exact absurd hy hs
      · rfl
    have hp := mem_condFilter_pred
      (by show (!sel.locations.isEmpty && t.cols.contains Col.locationDescription) = true
          rw [hne, hc]
          rfl) hm
    intro hn
    rw [hn] at hp
    simp [optMem] at hp
  · have h1 : filterYear sel t = t := condFilter_inactive
      (by show (!sel.years.isEmpty && t.cols.contains Col.year) = false
          rw [hs]
          rfl)
    rw [h1]
    exact hm

/-- Claim C10, witness: with year selection `[2020]` on a concrete table, a
matching row survives with a non-null year, while the all-null row survives
the empty selection. -/
theorem nonempty_selection_excludes_null_witness :
    (⟨none, some 2020, some "THEFT", some "STREET", some true,
        none, none, none⟩ : Row).year ≠ none
  ∧ blankRow ∈ (filterYear sEmpty tEx).rows :=
  ⟨(nonempty_selection_excludes_null tEx s1 _).1 (by decide) rfl (by decide),
   (nonempty_selection_excludes_null tEx sEmpty blankRow).2.2.2 rfl (by decide)⟩

/-- Claim C7 (amended): every reported arrest rate belongs to a non-empty
group and equals `100 * count(arrest=true in group) / count(group)`, lies
in `[0, 100]`; the list is sorted descending by rate with at most 15
entries; ties, however, are ordered by the groupby key order (primary
types sorted ascending), not by the table's first-seen order. -/
theorem arrest_rates_spec (t : Table) :
    (∀ pr ∈ arrestRates t,
        0 < groupCount t pr.1
      ∧ pr.2 = (groupTrueCount t pr.1 : ℚ) / (groupCount t pr.1 : ℚ) * 100
      ∧ 0 ≤ pr.2 ∧ pr.2 ≤ 100)
  ∧ (arrestRates t).Pairwise (fun a b => b.2 ≤ a.2)
  ∧ (arrestRates t).length ≤ 15 := by
  refine ⟨?_, ?_, ?_⟩
  · intro pr hpr
    have h1 : pr ∈ sortBy rateDescLt ((groupKeys t).map fun k => (k, groupRate t k)) :=
      List.mem_of_mem_take hpr
    have h2 : pr ∈ (groupKeys t).map fun k => (k, groupRate t k) :=
      mem_sortBy _ _ _ h1
    rcases List.mem_map.mp h2 with ⟨k, hk, rfl⟩
    have hpos : 0 < groupCount t k := groupCount_pos_of_mem hk
    have hb : (0:ℚ) < (groupCount t k : ℚ) := by exact_mod_cast hpos
    have hab : (groupTrueCount t k : ℚ) ≤ (groupCount t k : ℚ) := by
      exact_mod_cast groupTrueCount_le t k
    refine ⟨hpos, rfl, ?_, ?_⟩
    · show 0 ≤ (groupTrueCount t k : ℚ) / (groupCount t k : ℚ) * 100
      positivity
    · show (groupTrueCount t k : ℚ) / (groupCount t k : ℚ) * 100 ≤ 100
      have hd1 : (groupTrueCount t k : ℚ) / (groupCount t k : ℚ) ≤ 1 :=
        (div_le_one hb).mpr hab
      nlinarith [hd1]
  · exact (sortBy_rate_pairwise _).sublist (List.take_sublist _ _)
  · exact List.length_take_le _ _

/-- Claim C7, witness: the spec's own example — THEFT {true, false},
BATTERY {true} — gives rates 50 and 100 with BATTERY first, and the
theorem instantiated at BATTERY. -/
theorem arrest_rates_spec_witness :
    arrestRates tEx7 = [("BATTERY", (100:ℚ)), ("THEFT", (50:ℚ))]
  ∧ 0 < groupCount tEx7 "BATTERY"
  ∧ (100:ℚ) = (groupTrueCount tEx7 "BATTERY" : ℚ) / (groupCount tEx7 "BATTERY" : ℚ) * 100
  ∧ 0 ≤ (100:ℚ) ∧ (100:ℚ) ≤ 100 := by
  have hB : groupRate tEx7 "BATTERY" = 100 := by
    show (groupTrueCount tEx7 "BATTERY" : ℚ) / (groupCount tEx7 "BATTERY" : ℚ) * 100 = 100
    rw [show groupTrueCount tEx7 "BATTERY" = 1 from rfl,
      show groupCount tEx7 "BATTERY" = 1 from rfl]
    norm_num
  have hT : groupRate tEx7 "THEFT" = 50 := by
    show (groupTrueCount tEx7 "THEFT" : ℚ) / (groupCount tEx7 "THEFT" : ℚ) * 100 = 50
    rw [show groupTrueCount tEx7 "THEFT" = 1 from rfl,
      show groupCount tEx7 "THEFT" = 2 from rfl]
    norm_num
  have hval : arrestRates tEx7 = [("BATTERY", (100:ℚ)), ("THEFT", (50:ℚ))] := by
    unfold arrestRates
    rw [show groupKeys tEx7 = ["BATTERY", "THEFT"] from by decide]
    simp only [List.map_cons, List.map_nil, hB, hT]
    decide
  have h := (arrest_rates_spec tEx7).1 ("BATTERY", (100:ℚ))
    (by rw [hval]; exact List.mem_cons_self _ _)
  exact ⟨hval, h.1, h.2.1, h.2.2.1, h.2.2.2⟩

/-- Claim C7, counterexample: two tied 100% groups whose first-seen order
(ZEBRA before APPLE) is the reverse of the alphabetical groupby key order;
the code reports APPLE first, so ties are not broken by the table's stable
original order as the claim states. -/
theorem arrest_rates_tie_not_first_seen :
    arrestRates tZA = [("APPLE", (100:ℚ)), ("ZEBRA", (100:ℚ))]
  ∧ specArrestRates tZA = [("ZEBRA", (100:ℚ)), ("APPLE", (100:ℚ))]
  ∧ arrestRates tZA ≠ specArrestRates tZA := by
  have hZ : groupRate tZA "ZEBRA" = 100 := by
    show (groupTrueCount tZA "ZEBRA" : ℚ) / (groupCount tZA "ZEBRA" : ℚ) * 100 = 100
    rw [show groupTrueCount tZA "ZEBRA" = 1 from rfl,
      show groupCount tZA "ZEBRA" = 1 from rfl]
    norm_num
  have hA : groupRate tZA "APPLE" = 100 := by
    show (groupTrueCount tZA "APPLE" : ℚ) / (groupCount tZA "APPLE" : ℚ) * 100 = 100
    rw [show groupTrueCount tZA "APPLE" = 1 from rfl,
      show groupCount tZA "APPLE" = 1 from rfl]
    norm_num
  have e1 : arrestRates tZA = [("APPLE", (100:ℚ)), ("ZEBRA", (100:ℚ))] := by
    unfold arrestRates
    rw [show groupKeys tZA = ["APPLE", "ZEBRA"] from by decide]
    simp only [List.map_cons, List.map_nil, hA, hZ]
    decide
  have e2 : specArrestRates tZA = [("ZEBRA", (100:ℚ)), ("APPLE", (100:ℚ))] := by
    unfold specArrestRates
    rw [show firstSeenDedup (tZA.rows.filterMap fun r => r.primaryType)
        = ["ZEBRA", "APPLE"] from by decide]
    simp only [List.map_cons, List.map_nil, hA, hZ]
    decide
  refine ⟨e1, e2, ?_⟩
  rw [e1, e2]
  decide

/-- Claim C8 (amended): when at least 500 coordinate-valid rows remain (so
the slider's default of 500 lies inside its bounds), the map plots exactly
the first `N` coordinate-valid rows in table order for the user-chosen
`N ∈ [100, min(1000, count)]` — pure truncation, never a sample; with
fewer than 500 rows the slider construction errors instead (see the
counterexample). -/
theorem map_view_truncates (t : Table) (choice : Nat) (cr : List Row)
    (hcr : coordRows t = Except.ok cr) (h500 : 500 ≤ cr.length)
    (hlo : 100 ≤ choice) (hhi : choice ≤ min 1000 cr.length) :
    mapView t choice = Except.ok (MapResult.plotted (cr.take choice))
  ∧ (cr.take choice).length = choice := by
  have hpos : 0 < cr.length := by omega
  have hsl : slider 100 (min 1000 cr.length) 500 choice = Except.ok choice := by
    rw [slider, if_pos]
    · congr 1
      omega
    · exact ⟨by norm_num, le_min (by norm_num) h500⟩
  have hview : mapView t choice =
      if 0 < cr.length then
        match slider 100 (min 1000 cr.length) 500 choice with
        | Except.error e => Except.error e
        | Except.ok n => Except.ok (MapResult.plotted (cr.take n))
      else Except.ok MapResult.noPoints := by
    unfold mapView
    rw [hcr]
  refine ⟨?_, ?_⟩
  · rw [hview, if_pos hpos, hsl]
  · rw [List.length_take]
    omega

set_option maxRecDepth 4000 in
/-- Claim C8, witness: slider choice 100 against 500 coordinate-valid rows
plots exactly the first 100 rows in table order. -/
theorem map_view_truncates_witness :
    mapView tManyCoords 100
      = Except.ok (MapResult.plotted ((List.replicate 500 rCoord).take 100))
  ∧ ((List.replicate 500 rCoord).take 100).length = 100 :=
  map_view_truncates tManyCoords 100 (List.replicate 500 rCoord) rfl
    (by simp) (by norm_num) (by simp)

/-- Claim C8, counterexample: with only 3 coordinate-valid rows the slider
default 500 lies outside the bounds `[100, min(1000, 3)]`, so the view
errors instead of displaying the first rows. -/
theorem map_view_slider_crash :
    coordRows tFewCoords = Except.ok [rCoord, rCoord, rCoord]
  ∧ mapView tFewCoords 100 = Except.error AppError.sliderError := ⟨rfl, rfl⟩

end CrimeDashboard
